import Mathlib

/-!
Shallow embedding of the session layer of src/src/game/Server/WorldSession.cpp
(the per-connection session of a tick-driven simulation server): packet queues
and their drains, opcode admission control, the session state machine and the
logout teardown protocol.  External collaborators (handlers, sockets, the
persistence layer, managers) are modelled as opaque parameters or as entries of
an observable event trace.  The build modelled is the default one: the
BUILD_PLAYERBOT and ENABLE_PLAYERBOTS conditional blocks are not compiled.
Debug-only logging (DEBUG_LOG gated by log level, outChar bookkeeping,
LogUnprocessedTail) is elided from the trace; warnings and error logs that the
specification talks about are kept as trace events.
-/

namespace Mangos

/-- Admission-status tag of an opcode (the status field of OpcodeHandler). -/
inductive SessionStatus where
  | STATUS_AUTHED
  | STATUS_LOGGEDIN
  | STATUS_LOGGEDIN_OR_RECENTLY_LOGGEDOUT
  | STATUS_TRANSFER
  | STATUS_NEVER
  | STATUS_UNHANDLED
  deriving DecidableEq

/-- Processing-mode tag of an opcode (the packetProcessing field of OpcodeHandler). -/
inductive PacketProcessing where
  | PROCESS_INPLACE
  | PROCESS_THREADUNSAFE
  | PROCESS_MAP_THREAD
  | PROCESS_IMMEDIATE
  deriving DecidableEq

/-- One entry of the static opcode table: admission status and processing mode.
The handler reference itself is modelled separately (HandlerSem below). -/
structure OpcodeHandler where
  status : SessionStatus
  packetProcessing : PacketProcessing
  deriving DecidableEq

/-- An inbound message envelope.  Only the opcode matters for routing and
admission; the payload cursor is owned by the opaque handler. -/
structure WorldPacket where
  opcode : Nat
  deriving DecidableEq

/-- Session lifecycle state (WorldSessionState in WorldSession.h). -/
inductive WorldSessionState where
  | WORLD_SESSION_STATE_CREATED
  | WORLD_SESSION_STATE_CHAR_SELECTION
  | WORLD_SESSION_STATE_READY
  | WORLD_SESSION_STATE_OFFLINE
  deriving DecidableEq

/-- The transport, reduced to the one observable the session checks before
every use: whether it has been closed. -/
structure WorldSocket where
  closed : Bool
  deriving DecidableEq

/-- The attached player, reduced to the fields WorldSession.cpp reads during
dispatch and logout. -/
structure Player where
  guidLow : Nat
  objectGuid : Nat
  inWorld : Bool
  beingTeleportedFar : Bool
  deathTimer : Nat
  spiritOfRedemption : Bool
  inCombat : Bool
  instanceValid : Bool
  gameMaster : Bool
  inBattleGround : Bool
  bgQueues : List Nat
  guildId : Nat
  hasLoot : Bool
  hasSocial : Bool
  inGroup : Bool
  groupIsRaid : Bool
  canDelayTeleport : Bool
  hasDelayedTeleport : Bool
  deriving DecidableEq

/-- A deferred callback posted to the Messager.  The only closure produced by
this file is the forced-disconnect scheduled by ProcessByteBufferException;
it captures the player guid by value, never a raw pointer. -/
inductive Msg where
  | kick (guid : Nat)
  deriving DecidableEq

/-- Outbound packets whose triggering conditions belong to this core. -/
inductive OutPacket where
  | authOk
  | authQueued
  | logoutComplete
  deriving DecidableEq

/-- Observable trace events: handler invocations, warnings and error logs the
spec talks about, sends, and calls into external collaborators. -/
inductive Event where
  | opcodeCounted (op : Nat)
  | handlerInvoked (op : Nat)
  | warnUnexpected (op : Nat)
  | errorNotAllowed (op : Nat)
  | debugUnhandled (op : Nat)
  | faultLogged (op : Nat)
  | delayedTeleportExecuted
  | kickExecuted (guid : Nat)
  | packetSent (pk : OutPacket)
  | friendOffline (guid : Nat)
  | socketClosed
  | socketFinalized
  | moveWorldportAck
  | lootReleased
  | repopAtGraveyard
  | playerKilled
  | combatStopped
  | bgPlayerLoggedOut
  | teleportedHomebind
  | bgQueueRemoved (q : Nat)
  | dbActiveRealmCleared (account : Nat)
  | guildSignedOff (guild : Nat)
  | petRemoved
  | playerSaved (guid : Nat)
  | channelsCleaned
  | lfgLeft
  | groupUninvited
  | removedFromGroup
  | groupStatusUpdated
  | gmTicketOffline
  | socialRemoved (guid : Nat)
  | mapRemoved
  | cleanupsBeforeDelete
  | deletedFromWorld
  | dbCharsSetOffline (account : Nat)
  deriving DecidableEq

/-- The session state (WorldSession).  Field names follow the source members;
the leading underscore of the C++ member _player is dropped. -/
structure WorldSession where
  accountId : Nat
  player : Option Player
  m_GUIDLow : Nat
  m_Socket : Option WorldSocket
  m_requestSocket : Option WorldSocket
  m_inQueue : Bool
  m_playerLogout : Bool
  m_playerRecentlyLogout : Bool
  m_playerLoading : Bool
  m_playerSave : Bool
  logoutTime : Nat
  kickTime : Nat
  sessionState : WorldSessionState
  messager : List Msg
  recvQueue : List WorldPacket
  recvQueueMap : List WorldPacket
  deriving DecidableEq

/-- Result of running an opaque opcode handler: it mutates the session and
either returns normally or raises a ByteBufferException (payload-framing
fault) leaving the session as mutated so far. -/
inductive HandlerResult where
  | ok (s : WorldSession)
  | threw (s : WorldSession)

/-- The opcode-handler semantics: one opaque state transformer per opcode.
Claims quantify over every such semantics. -/
abbrev HandlerSem := Nat → WorldSession → HandlerResult

/-- The whitelisted opcode that does not clear the recent-logout grace flag
on the STATUS_AUTHED path (value from Opcodes.h, external static data). -/
def CMSG_SET_ACTIVE_VOICE_CHANNEL : Nat := 0x3d3

/-- True when the session holds a transport that has not been closed:
the check m_Socket and not m_Socket IsClosed performed before every use. -/
def socketOpen (s : WorldSession) : Bool :=
  match s.m_Socket with
  | some sk => !sk.closed
  | none => false

/-- SendPacket: silently no-ops unless a transport is attached and open. -/
def SendPacket (s : WorldSession) (pk : OutPacket) : List Event :=
  if socketOpen s then [Event.packetSent pk] else []

/-- SetInCharSelection: enter CHAR_SELECTION and arm the 15-minute
inactivity kick deadline. -/
def SetInCharSelection (now : Nat) (s : WorldSession) : WorldSession :=
  {s with sessionState := WorldSessionState.WORLD_SESSION_STATE_CHAR_SELECTION,
          kickTime := now + 15 * 60}

/-- Modelled from the spec: LogoutRequest is an inline of WorldSession.h,
which is not under src.  Per the spec it records the wall-clock timestamp
from which the scheduled-logout and reconnection-grace deadlines are
measured; step 19 of the Logout Protocol clears it (argument 0). -/
def LogoutRequest (t : Nat) (s : WorldSession) : WorldSession :=
  {s with logoutTime := t}

/-- Modelled from the spec: ShouldLogOut is an inline of WorldSession.h,
which is not under src.  The scheduled logout fires once the recorded
request timestamp is 20 seconds old (the 20-second window matches the
reconnect comment in Update and the KickPlayer back-dating by 20). -/
def ShouldLogOut (now : Nat) (s : WorldSession) : Bool :=
  decide (s.logoutTime ≠ 0 ∧ s.logoutTime + 20 ≤ now)

/-- Modelled from the spec: ShouldDisconnect is an inline of WorldSession.h,
which is not under src.  The reconnection grace elapses 20 seconds after
the timestamp recorded by SetOffline (the comment in Update gives the
player the opportunity to reconnect within 20 seconds). -/
def ShouldDisconnect (now : Nat) (s : WorldSession) : Bool :=
  decide (s.logoutTime ≠ 0 ∧ s.logoutTime + 20 ≤ now)

/-- Modelled from the spec: IsOffline is an inline of WorldSession.h,
which is not under src; it tests the lifecycle state. -/
def IsOffline (s : WorldSession) : Bool :=
  decide (s.sessionState = WorldSessionState.WORLD_SESSION_STATE_OFFLINE)

/-- SetOffline: notify friends and arm the grace deadline when a player is
attached, force-close and finalize any transport, enter OFFLINE. -/
def SetOffline (now : Nat) (s : WorldSession) : WorldSession × List Event :=
  let t1 : WorldSession × List Event :=
    match s.player with
    | some pl => (LogoutRequest now s, [Event.friendOffline pl.objectGuid])
    | none => (s, [])
  let t2 : WorldSession × List Event :=
    match t1.1.m_Socket with
    | some sk =>
        ({t1.1 with m_Socket := none},
         (if sk.closed then [] else [Event.socketClosed]) ++ [Event.socketFinalized])
    | none => (t1.1, [])
  ({t2.1 with sessionState := WorldSessionState.WORLD_SESSION_STATE_OFFLINE},
   t1.2 ++ t2.2)

/-- Outcome of ExecuteOpcode: the handler returned normally, or the
ByteBufferException escaped to the caller (to be caught in the drain). -/
inductive ExecOut where
  | ok (s : WorldSession) (ev : List Event)
  | exn (s : WorldSession) (ev : List Event)

/-- ExecuteOpcode: wrap the handler call in the delayed-teleport guard.
Before the call the attached player is marked ineligible for implicit far
teleports; after a normal return the mark is cleared and a requested delayed
teleport is performed.  On a raised fault the wrapper is skipped. -/
def ExecuteOpcode (H : HandlerSem) (s : WorldSession) (p : WorldPacket) : ExecOut :=
  match H p.opcode {s with player := s.player.map (fun pl => {pl with canDelayTeleport := true})} with
  | HandlerResult.ok s1 =>
      match s1.player with
      | none => ExecOut.ok s1 [Event.handlerInvoked p.opcode]
      | some pl =>
          if pl.hasDelayedTeleport then
            ExecOut.ok
              {s1 with player := some {pl with canDelayTeleport := false, hasDelayedTeleport := false}}
              [Event.handlerInvoked p.opcode, Event.delayedTeleportExecuted]
          else
            ExecOut.ok {s1 with player := some {pl with canDelayTeleport := false}}
              [Event.handlerInvoked p.opcode]
  | HandlerResult.threw s1 => ExecOut.exn s1 [Event.handlerInvoked p.opcode]

/-- ProcessByteBufferException: log the fault; when the kick-on-bad-packet
config is set, read the guid of the attached player and post a deferred kick
to the Messager.  The source reads the player guid without a null check
(ObjectGuid guid given by the member access on _player), so the outcome is
none, meaning an invalid dereference, when no player is attached. -/
def ProcessByteBufferException (kickCfg : Bool) (s : WorldSession) (op : Nat) :
    Option (WorldSession × List Event) :=
  if kickCfg then
    match s.player with
    | none => none
    | some pl =>
        some ({s with messager := s.messager ++ [Msg.kick pl.objectGuid]},
              [Event.faultLogged op])
  else some (s, [Event.faultLogged op])

/-- Admission-checked execution of one envelope with the per-envelope catch of
the payload-framing fault; none means the catch path itself crashed. -/
def dispatchOpcode (kickCfg : Bool) (H : HandlerSem) (s : WorldSession) (p : WorldPacket) :
    Option (WorldSession × List Event) :=
  match ExecuteOpcode H s p with
  | ExecOut.ok s' ev => some (s', ev)
  | ExecOut.exn s' ev =>
      match ProcessByteBufferException kickCfg s' p.opcode with
      | none => none
      | some (s'', ev') => some (s'', ev ++ ev')

/-- The admission switch of Update for one envelope of the generic queue
(the switch on the opcode status inside the drain loop of Update). -/
def processGenericPacket (kickCfg : Bool) (H : HandlerSem)
    (opcodeTable : Nat → OpcodeHandler) (s : WorldSession) (p : WorldPacket) :
    Option (WorldSession × List Event) :=
  match (opcodeTable p.opcode).status with
  | SessionStatus.STATUS_LOGGEDIN =>
      match s.player with
      | none =>
          some (s, if s.m_playerRecentlyLogout then [] else [Event.warnUnexpected p.opcode])
      | some pl =>
          if pl.inWorld then dispatchOpcode kickCfg H s p
          else some (s, [])
  | SessionStatus.STATUS_LOGGEDIN_OR_RECENTLY_LOGGEDOUT =>
      if s.player = none ∧ s.m_playerRecentlyLogout = false then
        some (s, [Event.warnUnexpected p.opcode])
      else dispatchOpcode kickCfg H s p
  | SessionStatus.STATUS_TRANSFER =>
      match s.player with
      | none => some (s, [Event.warnUnexpected p.opcode])
      | some pl =>
          if pl.inWorld then some (s, [Event.warnUnexpected p.opcode])
          else dispatchOpcode kickCfg H s p
  | SessionStatus.STATUS_AUTHED =>
      if s.m_inQueue then some (s, [Event.warnUnexpected p.opcode])
      else
        let s' := if p.opcode = CMSG_SET_ACTIVE_VOICE_CHANNEL then s
                  else {s with m_playerRecentlyLogout := false}
        dispatchOpcode kickCfg H s' p
  | SessionStatus.STATUS_NEVER => some (s, [Event.errorNotAllowed p.opcode])
  | SessionStatus.STATUS_UNHANDLED => some (s, [Event.debugUnhandled p.opcode])

/-- The drain loop of Update over the swapped-out generic queue: processing
continues only while a transport is attached and open; once it is not, the
remaining swapped envelopes are discarded silently. -/
def drainRecvQueue (kickCfg : Bool) (H : HandlerSem)
    (opcodeTable : Nat → OpcodeHandler) :
    WorldSession → List WorldPacket → Option (WorldSession × List Event)
  | s, [] => some (s, [])
  | s, p :: rest =>
      if socketOpen s then
        match processGenericPacket kickCfg H opcodeTable s p with
        | none => none
        | some (s', ev) =>
            match drainRecvQueue kickCfg H opcodeTable s' rest with
            | none => none
            | some (s'', ev') => some (s'', ev ++ ev')
      else some (s, [])

/-- The admission check of UpdateMap for one envelope of the map queue: only
STATUS_LOGGEDIN envelopes are dispatched, every other status is silently
skipped; no player or in-world check is made here. -/
def processMapPacket (kickCfg : Bool) (H : HandlerSem)
    (opcodeTable : Nat → OpcodeHandler) (s : WorldSession) (p : WorldPacket) :
    Option (WorldSession × List Event) :=
  if (opcodeTable p.opcode).status = SessionStatus.STATUS_LOGGEDIN then
    dispatchOpcode kickCfg H s p
  else some (s, [])

/-- The drain loop of UpdateMap: the source iterates with an index i that is
incremented while the front of the deque is popped, so the loop condition
compares i against the shrinking size of the remaining copy. -/
def drainRecvQueueMap (kickCfg : Bool) (H : HandlerSem)
    (opcodeTable : Nat → OpcodeHandler) :
    WorldSession → List WorldPacket → Nat → Option (WorldSession × List Event)
  | s, [], _ => some (s, [])
  | s, p :: rest, i =>
      if socketOpen s && decide (i < rest.length + 1) then
        match processMapPacket kickCfg H opcodeTable s p with
        | none => none
        | some (s', ev) =>
            match drainRecvQueueMap kickCfg H opcodeTable s' rest (i + 1) with
            | none => none
            | some (s'', ev') => some (s'', ev ++ ev')
      else some (s, [])

/-- UpdateMap: swap the map queue against an empty one, then drain the copy. -/
def UpdateMap (kickCfg : Bool) (H : HandlerSem)
    (opcodeTable : Nat → OpcodeHandler) (s : WorldSession) :
    Option (WorldSession × List Event) :=
  drainRecvQueueMap kickCfg H opcodeTable {s with recvQueueMap := []} s.recvQueueMap 0

/-- QueuePacket: route an inbound envelope by its processing-mode tag.
PROCESS_IMMEDIATE invokes the raw handler synchronously on the calling
thread (no admission check, no teleport wrapper, no catch: a raised fault
propagates to the caller, modelled as none); PROCESS_MAP_THREAD appends to
the map queue under its lock; everything else appends to the generic queue
under its lock.  Every call first bumps the per-opcode telemetry counter. -/
def QueuePacket (H : HandlerSem) (opcodeTable : Nat → OpcodeHandler)
    (s : WorldSession) (p : WorldPacket) : Option (WorldSession × List Event) :=
  let opHandle := opcodeTable p.opcode
  if opHandle.packetProcessing = PacketProcessing.PROCESS_IMMEDIATE then
    match H p.opcode s with
    | HandlerResult.ok s' =>
        some (s', [Event.opcodeCounted p.opcode, Event.handlerInvoked p.opcode])
    | HandlerResult.threw _ => none
  else if opHandle.packetProcessing = PacketProcessing.PROCESS_MAP_THREAD then
    some ({s with recvQueueMap := s.recvQueueMap ++ [p]}, [Event.opcodeCounted p.opcode])
  else
    some ({s with recvQueue := s.recvQueue ++ [p]}, [Event.opcodeCounted p.opcode])

/-- Modelled from the spec: HandleMoveWorldportAckOpcode lives in another
translation unit, not under src.  Per the spec the pending far relocation is
resolved to completion; the while loops of LogoutPlayer call it until the
player is no longer being far-teleported. -/
def finishFarTeleport (s : WorldSession) : WorldSession × List Event :=
  match s.player with
  | some pl =>
      if pl.beingTeleportedFar then
        ({s with player := some {pl with beingTeleportedFar := false}},
         [Event.moveWorldportAck])
      else (s, [])
  | none => (s, [])

/-- The unconditional tail of LogoutPlayer: clear the logout-in-progress
guard, set the recent-logout grace flag, re-enter char selection with its
deadline, clear the scheduled-logout timestamp. -/
def logoutTail (now : Nat) (s : WorldSession) : WorldSession :=
  LogoutRequest 0 (SetInCharSelection now
    {s with m_playerLogout := false, m_playerRecentlyLogout := true})

/-- LogoutPlayer: the ordered teardown protocol.  With no attached player
only the flag tail runs.  With a player attached the teardown steps run in
source order, each external call recorded as a trace event, and the player
reference is cleared through SetPlayer with guid argument 0. -/
def LogoutPlayer (now : Nat) (s : WorldSession) : WorldSession × List Event :=
  let t0 := finishFarTeleport s
  let s1 := {t0.1 with m_playerLogout := true}
  match s1.player with
  | none => (logoutTail now s1, t0.2)
  | some p =>
      let evLoot := if p.hasLoot then [Event.lootReleased] else []
      let evDeath :=
        if p.deathTimer ≠ 0 then [Event.repopAtGraveyard]
        else if p.spiritOfRedemption then [Event.playerKilled, Event.repopAtGraveyard]
        else if p.inCombat then [Event.combatStopped]
        else []
      let evBg := if p.inBattleGround then [Event.bgPlayerLoggedOut] else []
      let evHome :=
        if !p.instanceValid && !p.gameMaster then
          [Event.teleportedHomebind, Event.moveWorldportAck]
        else []
      let evQueues := p.bgQueues.map Event.bgQueueRemoved
      let evGuild := if p.guildId ≠ 0 then [Event.guildSignedOff p.guildId] else []
      let evSave := if s1.m_playerSave then [Event.playerSaved p.guidLow] else []
      let removedFromGrp := p.inGroup && !p.groupIsRaid && socketOpen s1
      let evGrpRemove := if removedFromGrp then [Event.removedFromGroup] else []
      let evGrpUpd := if p.inGroup && !removedFromGrp then [Event.groupStatusUpdated] else []
      let evSocial :=
        if p.hasSocial then [Event.friendOffline p.objectGuid, Event.socialRemoved p.guidLow]
        else []
      let evWorld :=
        if p.inWorld then [Event.mapRemoved]
        else [Event.cleanupsBeforeDelete, Event.deletedFromWorld]
      let s2 := {s1 with player := none, m_GUIDLow := 0}
      let evLogoutPkt := SendPacket s2 OutPacket.logoutComplete
      (logoutTail now s2,
       t0.2 ++ evLoot ++ evDeath ++ evBg ++ evHome ++ evQueues
         ++ [Event.dbActiveRealmCleared s1.accountId] ++ evGuild ++ [Event.petRemoved]
         ++ evSave ++ [Event.channelsCleaned, Event.lfgLeft, Event.groupUninvited]
         ++ evGrpRemove ++ evGrpUpd ++ evSocial ++ [Event.gmTicketOffline] ++ evWorld
         ++ evLogoutPkt ++ [Event.dbCharsSetOffline s1.accountId])

/-- KickPlayer: record whether to save, then either log out in place or
back-date a logout request by the 20-second window so it fires now. -/
def KickPlayer (now : Nat) (save inPlace : Bool) (s : WorldSession) :
    WorldSession × List Event :=
  let s1 := {s with m_playerSave := save}
  if inPlace then LogoutPlayer now s1
  else (LogoutRequest (now - 20) s1, [])

/-- The session state machine switch at the end of Update, evaluated after
the generic drain.  Returns the new session, the keep-me flag (false means
the owner should remove the session) and the trace. -/
def sessionStateSwitch (now : Nat) (s : WorldSession) :
    WorldSession × Bool × List Event :=
  match s.sessionState with
  | WorldSessionState.WORLD_SESSION_STATE_CREATED =>
      match s.m_requestSocket with
      | some rs =>
          let t := if IsOffline s then (s, ([] : List Event)) else SetOffline now s
          let s1 := {t.1 with m_Socket := some rs, m_requestSocket := none}
          let evOk := SendPacket s1 OutPacket.authOk
          (SetInCharSelection now s1, true, t.2 ++ evOk)
      | none =>
          let ev := if s.m_inQueue then SendPacket s OutPacket.authQueued
                    else SendPacket s OutPacket.authOk
          (SetInCharSelection now s, true, ev)
  | WorldSessionState.WORLD_SESSION_STATE_CHAR_SELECTION =>
      if socketOpen s then
        let t := if ShouldLogOut now s && !s.m_playerLoading then LogoutPlayer now s
                 else (s, [])
        let t2 := if t.1.kickTime ≠ 0 ∧ t.1.kickTime ≤ now then KickPlayer now true false t.1
                  else (t.1, [])
        (t2.1, true, t.2 ++ t2.2)
      else (s, false, [])
  | WorldSessionState.WORLD_SESSION_STATE_READY =>
      match s.m_Socket with
      | some sk =>
          if sk.closed then
            if s.player = none then (s, false, [])
            else
              let t := SetOffline now s
              (t.1, true, t.2)
          else if ShouldLogOut now s && !s.m_playerLoading then
            let t := LogoutPlayer now s
            (t.1, true, t.2)
          else (s, true, [])
      | none =>
          if ShouldLogOut now s && !s.m_playerLoading then
            let t := LogoutPlayer now s
            (t.1, true, t.2)
          else (s, true, [])
  | WorldSessionState.WORLD_SESSION_STATE_OFFLINE =>
      if ShouldDisconnect now s then
        let t := LogoutPlayer now s
        if t.1.m_requestSocket = none ∧ socketOpen t.1 = false then (t.1, false, t.2)
        else (t.1, true, t.2)
      else (s, true, [])

/-- Modelled from the spec: Messager Execute runs, on the owning tick, every
closure posted from foreign threads; the only closure posted by this core is
the deferred forced disconnect. -/
def messagerExecute (s : WorldSession) : WorldSession × List Event :=
  ({s with messager := []},
   s.messager.map (fun m => match m with | Msg.kick g => Event.kickExecuted g))

/-- Update: run the Messager, swap and drain the generic queue, then evaluate
the session state machine.  The Bool is the keep-me flag of the source
(false asks the owning registry to destroy the session); none means the
process crashed inside the drain. -/
def Update (kickCfg : Bool) (H : HandlerSem) (opcodeTable : Nat → OpcodeHandler)
    (now : Nat) (s : WorldSession) : Option (WorldSession × Bool × List Event) :=
  let t0 := messagerExecute s
  match drainRecvQueue kickCfg H opcodeTable {t0.1 with recvQueue := []} t0.1.recvQueue with
  | none => none
  | some (s1, ev1) =>
      let t2 := sessionStateSwitch now s1
      some (t2.1, t2.2.1, t0.2 ++ ev1 ++ t2.2.2)

/-! Concrete fixtures used by counterexamples and witnesses. -/

/-- A live in-world player with guid 7 and no special flags. -/
def basePlayer : Player :=
  { guidLow := 7, objectGuid := 7, inWorld := true, beingTeleportedFar := false,
    deathTimer := 0, spiritOfRedemption := false, inCombat := false,
    instanceValid := true, gameMaster := false, inBattleGround := false,
    bgQueues := [], guildId := 0, hasLoot := false, hasSocial := false,
    inGroup := false, groupIsRaid := false, canDelayTeleport := false,
    hasDelayedTeleport := false }

/-- A session with an open transport, empty queues and no attached player. -/
def baseSession : WorldSession :=
  { accountId := 3, player := none, m_GUIDLow := 0, m_Socket := some ⟨false⟩,
    m_requestSocket := none, m_inQueue := false, m_playerLogout := false,
    m_playerRecentlyLogout := false, m_playerLoading := false, m_playerSave := true,
    logoutTime := 0, kickTime := 0,
    sessionState := WorldSessionState.WORLD_SESSION_STATE_READY,
    messager := [], recvQueue := [], recvQueueMap := [] }

/-- The base session with basePlayer attached. -/
def sWithPlayer : WorldSession := {baseSession with player := some basePlayer, m_GUIDLow := 7}

/-- The base session flagged as waiting in the login queue. -/
def sInQueue : WorldSession := {baseSession with m_inQueue := true}

/-- The base session with no player and lifecycle state OFFLINE. -/
def sOffNoPlayer : WorldSession :=
  {baseSession with sessionState := WorldSessionState.WORLD_SESSION_STATE_OFFLINE}

/-- The base session whose transport has been closed. -/
def sClosedSock : WorldSession := {baseSession with m_Socket := some ⟨true⟩}

/-- The base session in CREATED state. -/
def sCreated : WorldSession :=
  {baseSession with sessionState := WorldSessionState.WORLD_SESSION_STATE_CREATED}

/-- A READY session with the base player attached and a closed transport. -/
def sReadyClosed : WorldSession :=
  {baseSession with player := some basePlayer, m_Socket := some ⟨true⟩}

/-- An OFFLINE session with the base player attached whose grace timestamp
is long past. -/
def sOffPast : WorldSession :=
  {baseSession with sessionState := WorldSessionState.WORLD_SESSION_STATE_OFFLINE,
                    player := some basePlayer, logoutTime := 10}

/-- Handler semantics that leave the session untouched. -/
def hId : HandlerSem := fun _ s => HandlerResult.ok s

/-- Handler semantics that always raise the payload-framing fault. -/
def hThrow : HandlerSem := fun _ s => HandlerResult.threw s

/-- Handler semantics that close the transport from inside the handler. -/
def hCloseSocket : HandlerSem := fun _ t => HandlerResult.ok {t with m_Socket := some ⟨true⟩}

/-- An opcode table tagging everything LOGGED-IN and map-tick. -/
def tableLoggedInMap : Nat → OpcodeHandler :=
  fun _ => ⟨SessionStatus.STATUS_LOGGEDIN, PacketProcessing.PROCESS_MAP_THREAD⟩

/-- An opcode table tagging everything AUTHED and generic. -/
def tableAuthed : Nat → OpcodeHandler :=
  fun _ => ⟨SessionStatus.STATUS_AUTHED, PacketProcessing.PROCESS_THREADUNSAFE⟩

/-- An opcode table tagging everything IMMEDIATE. -/
def tableImmediate : Nat → OpcodeHandler :=
  fun _ => ⟨SessionStatus.STATUS_AUTHED, PacketProcessing.PROCESS_IMMEDIATE⟩

/-- An opcode table tagging everything LOGGED-IN and in-place. -/
def tableInplace : Nat → OpcodeHandler :=
  fun _ => ⟨SessionStatus.STATUS_LOGGEDIN, PacketProcessing.PROCESS_INPLACE⟩

/-! Helper lemmas shared by several claim proofs. -/

/-- LogoutPlayer on a session with no attached player only runs the flag tail. -/
lemma LogoutPlayer_none_eq (now : Nat) (s : WorldSession) (h : s.player = none) :
    LogoutPlayer now s =
      ({s with m_playerLogout := false, m_playerRecentlyLogout := true,
               sessionState := WorldSessionState.WORLD_SESSION_STATE_CHAR_SELECTION,
               kickTime := now + 15 * 60, logoutTime := 0}, []) := by
  obtain ⟨acc, pl, guid, sock, rsock, q, plog, prlog, pload, psave, ltime, ktime,
    st, msgr, rq, rqm⟩ := s
  simp only at h
  subst h
  simp [LogoutPlayer, finishFarTeleport, logoutTail, LogoutRequest, SetInCharSelection]

/-- The session component of LogoutPlayer on a session with a player attached. -/
lemma LogoutPlayer_some_fst (now : Nat) (s : WorldSession) (p : Player)
    (h : s.player = some p) :
    (LogoutPlayer now s).1 =
      {s with player := none, m_GUIDLow := 0, m_playerLogout := false,
              m_playerRecentlyLogout := true,
              sessionState := WorldSessionState.WORLD_SESSION_STATE_CHAR_SELECTION,
              kickTime := now + 15 * 60, logoutTime := 0} := by
  obtain ⟨acc, pl, guid, sock, rsock, q, plog, prlog, pload, psave, ltime, ktime,
    st, msgr, rq, rqm⟩ := s
  simp only at h
  subst h
  by_cases hb : p.beingTeleportedFar <;>
    simp [LogoutPlayer, finishFarTeleport, logoutTail, LogoutRequest,
      SetInCharSelection, hb]

/-- Every event list produced by a normal return of ExecuteOpcode records the
handler invocation. -/
lemma ExecuteOpcode_ok_mem (H : HandlerSem) (s : WorldSession) (p : WorldPacket)
    (s1 : WorldSession) (ev : List Event)
    (h : ExecuteOpcode H s p = ExecOut.ok s1 ev) :
    Event.handlerInvoked p.opcode ∈ ev := by
  unfold ExecuteOpcode at h
  split at h
  · split at h
    · simp at h
      obtain ⟨-, rfl⟩ := h
      simp
    · split at h
      · simp at h
        obtain ⟨-, rfl⟩ := h
        simp
      · simp at h
        obtain ⟨-, rfl⟩ := h
        simp
  · simp at h

/-- Every event list produced by a faulting return of ExecuteOpcode records the
handler invocation. -/
lemma ExecuteOpcode_exn_mem (H : HandlerSem) (s : WorldSession) (p : WorldPacket)
    (s1 : WorldSession) (ev : List Event)
    (h : ExecuteOpcode H s p = ExecOut.exn s1 ev) :
    Event.handlerInvoked p.opcode ∈ ev := by
  unfold ExecuteOpcode at h
  split at h
  · split at h
    · simp at h
    · split at h <;> simp at h
  · simp at h
    obtain ⟨-, rfl⟩ := h
    simp

/-- Whenever dispatchOpcode completes, its trace records the handler
invocation. -/
lemma dispatchOpcode_mem (kickCfg : Bool) (H : HandlerSem) (s : WorldSession)
    (p : WorldPacket) (s' : WorldSession) (ev : List Event)
    (h : dispatchOpcode kickCfg H s p = some (s', ev)) :
    Event.handlerInvoked p.opcode ∈ ev := by
  unfold dispatchOpcode at h
  split at h
  next s1 ev1 hE =>
    simp at h
    obtain ⟨-, rfl⟩ := h
    exact ExecuteOpcode_ok_mem H s p s1 _ hE
  next s1 ev1 hE =>
    split at h
    next hP => simp at h
    next s2 ev2 hP =>
      simp at h
      obtain ⟨-, rfl⟩ := h
      have hm := ExecuteOpcode_exn_mem H s p s1 ev1 hE
      simp [hm]

/-- C1 counterexample: a LOGGED-IN envelope drained on the map queue of a
session with no attached player is passed to its handler, so the claim that
on the map-queue drain such an envelope is never passed to its handler when
no player is attached is false on this input. -/
theorem C1_counterexample :
    ({baseSession with recvQueueMap := [⟨10⟩]} : WorldSession).player = none ∧
    UpdateMap false hId tableLoggedInMap {baseSession with recvQueueMap := [⟨10⟩]} =
      some (baseSession, [Event.handlerInvoked 10]) := by decide

/-- C1 (amended): on the generic-queue drain a LOGGED-IN envelope is never
passed to its handler when no player is attached: it is dropped with a
warning unless the recent-logout grace flag is set, in which case the drop
is silent, and the handler runs only when the attached player is in-world.
The map-queue drain instead dispatches LOGGED-IN envelopes unconditionally,
with no player or in-world check. -/
theorem C1_loggedin_admission : ∀ (kickCfg : Bool) (H : HandlerSem)
    (opcodeTable : Nat → OpcodeHandler) (s : WorldSession) (p : WorldPacket),
    (opcodeTable p.opcode).status = SessionStatus.STATUS_LOGGEDIN →
    (s.player = none →
      processGenericPacket kickCfg H opcodeTable s p =
        some (s, if s.m_playerRecentlyLogout then [] else [Event.warnUnexpected p.opcode])) ∧
    (∀ pl, s.player = some pl → pl.inWorld = false →
      processGenericPacket kickCfg H opcodeTable s p = some (s, [])) ∧
    (∀ pl, s.player = some pl → pl.inWorld = true →
      processGenericPacket kickCfg H opcodeTable s p = dispatchOpcode kickCfg H s p) ∧
    processMapPacket kickCfg H opcodeTable s p = dispatchOpcode kickCfg H s p := by
  intro kickCfg H opcodeTable s p hst
  refine ⟨?_, ?_, ?_, ?_⟩
  · intro h; simp [processGenericPacket, hst, h]
  · intro pl h hiw; simp [processGenericPacket, hst, h, hiw]
  · intro pl h hiw; simp [processGenericPacket, hst, h, hiw]
  · simp [processMapPacket, hst]

/-- C1 witness: the amended theorem evaluated on a playerless session with an
envelope tagged LOGGED-IN. -/
theorem C1_loggedin_admission_witness :
    processGenericPacket false hId tableLoggedInMap baseSession ⟨10⟩ =
      some (baseSession,
        if baseSession.m_playerRecentlyLogout then [] else [Event.warnUnexpected 10]) ∧
    processMapPacket false hId tableLoggedInMap baseSession ⟨10⟩ =
      dispatchOpcode false hId baseSession ⟨10⟩ := by
  have h := C1_loggedin_admission false hId tableLoggedInMap baseSession ⟨10⟩ rfl
  exact ⟨h.1 rfl, h.2.2.2⟩

/-- C2 (code bug): LogoutPlayer clears m_GUIDLow through SetPlayer with guid
argument 0, so after the protocol completes the persisted identity is 0, not
the guid of the player that was attached before the call. -/
theorem C2_guidlow_not_preserved :
    sWithPlayer.m_GUIDLow = 7 ∧ sWithPlayer.player = some basePlayer ∧
    basePlayer.guidLow = 7 ∧
    (LogoutPlayer 1000 sWithPlayer).1.m_GUIDLow = 0 ∧
    (LogoutPlayer 1000 sWithPlayer).1.player = none := by decide

/-- C3 counterexample: with kick-on-bad-packet configured and no attached
player, a handler fault on the generic drain reaches the unguarded read of
the player guid in ProcessByteBufferException, so the drain result is none,
an invalid dereference terminating the process. -/
theorem C3_counterexample :
    baseSession.player = none ∧
    drainRecvQueue true hThrow tableAuthed baseSession [⟨11⟩] = none := by decide

/-- C3 (amended): a payload-framing fault is caught per-envelope; when
kick-on-bad-packet is configured the forced disconnect is only posted to the
Messager, the catch changes nothing else and the drain continues with the
next envelope, but this holds only provided a player is attached when the
catch runs with the kick configured: with no player attached the catch path
dereferences the null player reference. -/
theorem C3_fault_handling : ∀ (kickCfg : Bool) (H : HandlerSem)
    (opcodeTable : Nat → OpcodeHandler) (s : WorldSession) (p : WorldPacket)
    (rest : List WorldPacket) (op : Nat) (pl : Player),
    (s.player = some pl →
      ProcessByteBufferException true s op =
        some ({s with messager := s.messager ++ [Msg.kick pl.objectGuid]},
              [Event.faultLogged op])) ∧
    ProcessByteBufferException false s op = some (s, [Event.faultLogged op]) ∧
    (socketOpen s = true → ∀ s' ev,
      processGenericPacket kickCfg H opcodeTable s p = some (s', ev) →
      drainRecvQueue kickCfg H opcodeTable s (p :: rest) =
        Option.map (fun r => (r.1, ev ++ r.2)) (drainRecvQueue kickCfg H opcodeTable s' rest)) ∧
    (∀ s1 ev1, ExecuteOpcode H s p = ExecOut.exn s1 ev1 →
      (kickCfg = true → s1.player ≠ none) →
      dispatchOpcode kickCfg H s p ≠ none) := by
  intro kickCfg H opcodeTable s p rest op pl
  refine ⟨?_, ?_, ?_, ?_⟩
  · intro h; simp [ProcessByteBufferException, h]
  · simp [ProcessByteBufferException]
  · intro hso s' ev h
    simp only [drainRecvQueue, hso, if_true, h]
    cases hr : drainRecvQueue kickCfg H opcodeTable s' rest with
    | none => simp
    | some r => obtain ⟨s2, ev2⟩ := r; simp
  · intro s1 ev1 hE hpl
    unfold dispatchOpcode
    rw [hE]
    unfold ProcessByteBufferException
    cases kickCfg with
    | false => simp
    | true =>
        cases hp : s1.player with
        | none => exact absurd hp (hpl rfl)
        | some q => simp [hp]

/-- C3 witness: the amended theorem evaluated with a player attached and a
handler that always faults. -/
theorem C3_fault_handling_witness :
    ProcessByteBufferException true sWithPlayer 5 =
      some ({sWithPlayer with messager := sWithPlayer.messager ++ [Msg.kick basePlayer.objectGuid]},
            [Event.faultLogged 5]) ∧
    dispatchOpcode true hThrow sWithPlayer ⟨5⟩ ≠ none := by
  have h := C3_fault_handling true hThrow tableAuthed sWithPlayer ⟨5⟩ [] 5 basePlayer
  refine ⟨h.1 rfl, h.2.2.2
    {sWithPlayer with player := some {basePlayer with canDelayTeleport := true}}
    [Event.handlerInvoked 5] rfl ?_⟩
  intro _
  decide

/-- C4 counterexample: invoking LogoutPlayer on a playerless OFFLINE session
changes the lifecycle state, a side effect beyond the four flags listed by
the claim, so the claim as stated is false on this input. -/
theorem C4_counterexample :
    sOffNoPlayer.player = none ∧
    (LogoutPlayer 100 sOffNoPlayer).1.sessionState ≠ sOffNoPlayer.sessionState := by decide

/-- C4 (amended): invoking LogoutPlayer with no attached player is a no-op
beyond clearing the logout-in-progress guard, setting the recent-logout
grace flag, re-arming the char-selection deadline, clearing the scheduled
logout timestamp, and forcing the session state to CHAR_SELECTION; and the
protocol is idempotent: a second invocation with no player reattached
returns the same session and produces no further side effects. -/
theorem C4_logout_idempotent : ∀ (now : Nat) (s : WorldSession),
    (s.player = none →
      LogoutPlayer now s =
        ({s with m_playerLogout := false, m_playerRecentlyLogout := true,
                 sessionState := WorldSessionState.WORLD_SESSION_STATE_CHAR_SELECTION,
                 kickTime := now + 15 * 60, logoutTime := 0}, [])) ∧
    LogoutPlayer now (LogoutPlayer now s).1 = ((LogoutPlayer now s).1, []) := by
  intro now s
  refine ⟨fun h => LogoutPlayer_none_eq now s h, ?_⟩
  obtain ⟨acc, pl, guid, sock, rsock, q, plog, prlog, pload, psave, ltime, ktime,
    st, msgr, rq, rqm⟩ := s
  cases pl with
  | none =>
      simp [LogoutPlayer, finishFarTeleport, logoutTail, LogoutRequest, SetInCharSelection]
  | some p =>
      by_cases hb : p.beingTeleportedFar <;>
        simp [LogoutPlayer, finishFarTeleport, logoutTail, LogoutRequest,
          SetInCharSelection, hb]

/-- C4 witness: the amended theorem evaluated on a playerless session and,
for idempotence, on a session with a player attached. -/
theorem C4_logout_idempotent_witness :
    LogoutPlayer 100 baseSession =
      ({baseSession with
          m_playerLogout := false, m_playerRecentlyLogout := true,
          sessionState := WorldSessionState.WORLD_SESSION_STATE_CHAR_SELECTION,
          kickTime := 100 + 15 * 60, logoutTime := 0}, []) ∧
    LogoutPlayer 100 (LogoutPlayer 100 sWithPlayer).1 = ((LogoutPlayer 100 sWithPlayer).1, []) := by
  exact ⟨(C4_logout_idempotent 100 baseSession).1 rfl, (C4_logout_idempotent 100 sWithPlayer).2⟩

/-- C5: QueuePacket routes solely by the processing-mode tag: IMMEDIATE runs
the raw handler synchronously and bypasses both queues, MAP-TICK appends to
the map queue, and every other mode appends to the generic queue. -/
theorem C5_queue_routing : ∀ (H : HandlerSem) (opcodeTable : Nat → OpcodeHandler)
    (s : WorldSession) (p : WorldPacket),
    ((opcodeTable p.opcode).packetProcessing = PacketProcessing.PROCESS_IMMEDIATE →
      QueuePacket H opcodeTable s p =
        (match H p.opcode s with
         | HandlerResult.ok s' =>
             some (s', [Event.opcodeCounted p.opcode, Event.handlerInvoked p.opcode])
         | HandlerResult.threw _ => none)) ∧
    ((opcodeTable p.opcode).packetProcessing = PacketProcessing.PROCESS_MAP_THREAD →
      QueuePacket H opcodeTable s p =
        some ({s with recvQueueMap := s.recvQueueMap ++ [p]}, [Event.opcodeCounted p.opcode])) ∧
    ((opcodeTable p.opcode).packetProcessing ≠ PacketProcessing.PROCESS_IMMEDIATE →
     (opcodeTable p.opcode).packetProcessing ≠ PacketProcessing.PROCESS_MAP_THREAD →
      QueuePacket H opcodeTable s p =
        some ({s with recvQueue := s.recvQueue ++ [p]}, [Event.opcodeCounted p.opcode])) := by
  intro H opcodeTable s p
  refine ⟨?_, ?_, ?_⟩
  · intro h; simp [QueuePacket, h]
  · intro h; simp [QueuePacket, h]
  · intro h1 h2; simp [QueuePacket, h1, h2]

/-- C5 witness: the routing theorem evaluated on one table per mode. -/
theorem C5_queue_routing_witness :
    QueuePacket hId tableImmediate baseSession ⟨5⟩ =
      some (baseSession, [Event.opcodeCounted 5, Event.handlerInvoked 5]) ∧
    QueuePacket hId tableLoggedInMap baseSession ⟨5⟩ =
      some ({baseSession with recvQueueMap := baseSession.recvQueueMap ++ [⟨5⟩]},
            [Event.opcodeCounted 5]) ∧
    QueuePacket hId tableInplace baseSession ⟨5⟩ =
      some ({baseSession with recvQueue := baseSession.recvQueue ++ [⟨5⟩]},
            [Event.opcodeCounted 5]) := by
  refine ⟨?_, (C5_queue_routing hId tableLoggedInMap baseSession ⟨5⟩).2.1 rfl,
          (C5_queue_routing hId tableInplace baseSession ⟨5⟩).2.2 (by decide) (by decide)⟩
  have h := (C5_queue_routing hId tableImmediate baseSession ⟨5⟩).1 rfl
  simpa [hId] using h

/-- C9: an AUTHED envelope on the generic drain is rejected with a warning
and never dispatched when the session is flagged in queue; otherwise the
recent-logout grace flag is cleared, except for the one whitelisted opcode,
and the handler executes. -/
theorem C9_authed_admission : ∀ (kickCfg : Bool) (H : HandlerSem)
    (opcodeTable : Nat → OpcodeHandler) (s : WorldSession) (p : WorldPacket),
    (opcodeTable p.opcode).status = SessionStatus.STATUS_AUTHED →
    (s.m_inQueue = true →
      processGenericPacket kickCfg H opcodeTable s p =
        some (s, [Event.warnUnexpected p.opcode])) ∧
    (s.m_inQueue = false →
      processGenericPacket kickCfg H opcodeTable s p =
        dispatchOpcode kickCfg H
          (if p.opcode = CMSG_SET_ACTIVE_VOICE_CHANNEL then s
           else {s with m_playerRecentlyLogout := false}) p) ∧
    (∀ s' ev, processGenericPacket kickCfg H opcodeTable s p = some (s', ev) →
      s.m_inQueue = false → Event.handlerInvoked p.opcode ∈ ev) := by
  intro kickCfg H opcodeTable s p hst
  refine ⟨fun hq => by simp [processGenericPacket, hst, hq],
          fun hq => by simp [processGenericPacket, hst, hq], ?_⟩
  intro s' ev h hq
  simp [processGenericPacket, hst, hq] at h
  exact dispatchOpcode_mem _ _ _ _ _ _ h

/-- C9 witness: the admission theorem evaluated on an in-queue session and on
an out-of-queue session. -/
theorem C9_authed_admission_witness :
    processGenericPacket false hId tableAuthed sInQueue ⟨5⟩ =
      some (sInQueue, [Event.warnUnexpected 5]) ∧
    processGenericPacket false hId tableAuthed baseSession ⟨5⟩ =
      dispatchOpcode false hId
        (if (WorldPacket.mk 5).opcode = CMSG_SET_ACTIVE_VOICE_CHANNEL then baseSession
         else {baseSession with m_playerRecentlyLogout := false}) ⟨5⟩ := by
  exact ⟨(C9_authed_admission false hId tableAuthed sInQueue ⟨5⟩ rfl).1 rfl,
         (C9_authed_admission false hId tableAuthed baseSession ⟨5⟩ rfl).2.1 rfl⟩

/-- C10: in both drains, when the transport is absent or closed as an
envelope of the swapped-out queue comes up, that envelope and every
remaining one are discarded with no handler invocation and no warning, for
every queue content; and when a handler closes the transport mid-drain, the
rest of the swapped queue is likewise dropped. -/
theorem C10_closed_socket_drops : ∀ (kickCfg : Bool) (H : HandlerSem)
    (opcodeTable : Nat → OpcodeHandler) (s : WorldSession) (p : WorldPacket)
    (rest : List WorldPacket) (i : Nat),
    socketOpen s = false →
    drainRecvQueue kickCfg H opcodeTable s (p :: rest) = some (s, []) ∧
    drainRecvQueueMap kickCfg H opcodeTable s (p :: rest) i = some (s, []) ∧
    drainRecvQueue kickCfg hCloseSocket tableLoggedInMap sWithPlayer (p :: rest) =
      some ({sWithPlayer with
              m_Socket := some ⟨true⟩,
              player := some {basePlayer with canDelayTeleport := false}},
            [Event.handlerInvoked p.opcode]) := by
  intro kickCfg H opcodeTable s p rest i h
  refine ⟨by simp [drainRecvQueue, h], by simp [drainRecvQueueMap, h], ?_⟩
  have hstep : processGenericPacket kickCfg hCloseSocket tableLoggedInMap sWithPlayer p =
      some ({sWithPlayer with
              m_Socket := some ⟨true⟩,
              player := some {basePlayer with canDelayTeleport := false}},
            [Event.handlerInvoked p.opcode]) := by
    simp [processGenericPacket, tableLoggedInMap, sWithPlayer, basePlayer, baseSession,
      dispatchOpcode, ExecuteOpcode, hCloseSocket]
  have hsock : socketOpen sWithPlayer = true := by decide
  have hsock2 : socketOpen {sWithPlayer with
      m_Socket := some ⟨true⟩,
      player := some {basePlayer with canDelayTeleport := false}} = false := by decide
  cases rest with
  | nil => simp [drainRecvQueue, hsock, hstep]
  | cons p2 r2 => simp [drainRecvQueue, hsock, hstep, hsock2]

/-- C10 witness: the discard theorem evaluated on a closed-transport session
with a two-envelope queue, and on the mid-drain closing handler. -/
theorem C10_closed_socket_drops_witness :
    drainRecvQueue false hId tableLoggedInMap sClosedSock [⟨10⟩, ⟨11⟩] =
      some (sClosedSock, []) ∧
    drainRecvQueueMap false hId tableLoggedInMap sClosedSock [⟨10⟩, ⟨11⟩] 0 =
      some (sClosedSock, []) ∧
    drainRecvQueue false hCloseSocket tableLoggedInMap sWithPlayer [⟨10⟩, ⟨11⟩] =
      some ({sWithPlayer with
              m_Socket := some ⟨true⟩,
              player := some {basePlayer with canDelayTeleport := false}},
            [Event.handlerInvoked 10]) := by
  have h := C10_closed_socket_drops false hId tableLoggedInMap sClosedSock ⟨10⟩ [⟨11⟩] 0 (by decide)
  exact ⟨h.1, h.2.1, h.2.2⟩

/-- With an empty generic queue and an empty Messager, Update reduces to the
session state machine evaluation. -/
lemma Update_empty (kickCfg : Bool) (H : HandlerSem) (opcodeTable : Nat → OpcodeHandler)
    (now : Nat) (s : WorldSession) (hq : s.recvQueue = []) (hm : s.messager = []) :
    Update kickCfg H opcodeTable now s =
      some ((sessionStateSwitch now s).1, (sessionStateSwitch now s).2.1,
            (sessionStateSwitch now s).2.2) := by
  obtain ⟨acc, pl, guid, sock, rsock, q, plog, prlog, pload, psave, ltime, ktime,
    st, msgr, rq, rqm⟩ := s
  simp only at hq hm
  subst hq hm
  simp [Update, messagerExecute, drainRecvQueue]

/-- The session part of LogoutPlayer never touches the active or the pending
transport reference. -/
lemma LogoutPlayer_sockets (now : Nat) (s : WorldSession) :
    (LogoutPlayer now s).1.m_Socket = s.m_Socket ∧
    (LogoutPlayer now s).1.m_requestSocket = s.m_requestSocket := by
  cases hp : s.player with
  | none => rw [LogoutPlayer_none_eq now s hp]; exact ⟨rfl, rfl⟩
  | some p => rw [LogoutPlayer_some_fst now s p hp]; exact ⟨rfl, rfl⟩

/-- C6: a session evaluated in state CREATED always transitions out this
tick: with a pending transport, any previous transport is force-closed and
finalized, the pending transport becomes active and auth-ok is sent (on the
now-active transport); otherwise auth-queued is sent when the session is in
queue and auth-ok otherwise; in all cases the state becomes CHAR_SELECTION
and the inactivity kick deadline is armed at now plus 15 minutes. -/
theorem C6_created_transition : ∀ (kickCfg : Bool) (H : HandlerSem)
    (opcodeTable : Nat → OpcodeHandler) (now : Nat) (s : WorldSession),
    s.sessionState = WorldSessionState.WORLD_SESSION_STATE_CREATED →
    s.recvQueue = [] → s.messager = [] →
    ∃ s' ev, Update kickCfg H opcodeTable now s = some (s', true, ev) ∧
      s'.sessionState = WorldSessionState.WORLD_SESSION_STATE_CHAR_SELECTION ∧
      s'.kickTime = now + 15 * 60 ∧
      s'.m_requestSocket = none ∧
      (∀ rs, s.m_requestSocket = some rs →
        s'.m_Socket = some rs ∧
        (rs.closed = false → Event.packetSent OutPacket.authOk ∈ ev) ∧
        (∀ sk, s.m_Socket = some sk →
          Event.socketFinalized ∈ ev ∧ (sk.closed = false → Event.socketClosed ∈ ev))) ∧
      (s.m_requestSocket = none → socketOpen s = true →
        (s.m_inQueue = true → ev = [Event.packetSent OutPacket.authQueued]) ∧
        (s.m_inQueue = false → ev = [Event.packetSent OutPacket.authOk])) := by
  intro kickCfg H opcodeTable now s hst hq hm
  rw [Update_empty kickCfg H opcodeTable now s hq hm]
  obtain ⟨acc, pl, guid, sock, rsock, q, plog, prlog, pload, psave, ltime, ktime,
    st, msgr, rq, rqm⟩ := s
  simp only at hst
  subst hst
  cases rsock with
  | some rs0 =>
      obtain ⟨rsc⟩ := rs0
      refine ⟨_, _, rfl, rfl, rfl, rfl, ?_, ?_⟩
      · intro rs hrs
        simp only at hrs
        injection hrs with h1
        subst h1
        refine ⟨rfl, ?_, ?_⟩
        · intro hc
          simp only at hc
          subst hc
          simp [sessionStateSwitch, SetOffline, IsOffline, LogoutRequest,
            SendPacket, socketOpen]
        · intro sk hsk
          cases sock with
          | none => simp at hsk
          | some sk0 =>
              obtain ⟨skc⟩ := sk0
              simp only at hsk
              injection hsk with h1
              subst h1
              constructor
              · cases pl <;>
                  simp [sessionStateSwitch, SetOffline, IsOffline, LogoutRequest,
                    SendPacket, socketOpen]
              · intro hskc
                simp only at hskc
                subst hskc
                cases pl <;>
                  simp [sessionStateSwitch, SetOffline, IsOffline, LogoutRequest,
                    SendPacket, socketOpen]
      · intro hnone
        simp at hnone
  | none =>
      refine ⟨_, _, rfl, rfl, rfl, rfl, ?_, ?_⟩
      · intro rs hrs
        simp at hrs
      · intro _ hso
        constructor
        · intro hq'
          simp only at hq'
          subst hq'
          simp [sessionStateSwitch, SendPacket, hso]
        · intro hq'
          simp only at hq'
          subst hq'
          simp [sessionStateSwitch, SendPacket, hso]

/-- C6 witness: the transition theorem evaluated on a CREATED session with an
open transport, no pending transport and no queue flag. -/
theorem C6_created_transition_witness :
    ∃ s' ev, Update false hId tableAuthed 50 sCreated = some (s', true, ev) ∧
      s'.sessionState = WorldSessionState.WORLD_SESSION_STATE_CHAR_SELECTION ∧
      s'.kickTime = 50 + 15 * 60 ∧
      s'.m_requestSocket = none ∧
      (∀ rs, sCreated.m_requestSocket = some rs →
        s'.m_Socket = some rs ∧
        (rs.closed = false → Event.packetSent OutPacket.authOk ∈ ev) ∧
        (∀ sk, sCreated.m_Socket = some sk →
          Event.socketFinalized ∈ ev ∧ (sk.closed = false → Event.socketClosed ∈ ev))) ∧
      (sCreated.m_requestSocket = none → socketOpen sCreated = true →
        (sCreated.m_inQueue = true → ev = [Event.packetSent OutPacket.authQueued]) ∧
        (sCreated.m_inQueue = false → ev = [Event.packetSent OutPacket.authOk])) :=
  C6_created_transition false hId tableAuthed 50 sCreated rfl rfl rfl

/-- C7: a READY session whose transport is closed at tick evaluation sends
the friend-went-offline notification, arms the reconnection grace deadline,
transitions to OFFLINE, and keeps the player reference attached. -/
theorem C7_ready_socket_closed : ∀ (kickCfg : Bool) (H : HandlerSem)
    (opcodeTable : Nat → OpcodeHandler) (now : Nat) (s : WorldSession)
    (sk : WorldSocket) (pl : Player),
    s.sessionState = WorldSessionState.WORLD_SESSION_STATE_READY →
    s.m_Socket = some sk → sk.closed = true → s.player = some pl →
    s.recvQueue = [] → s.messager = [] →
    ∃ s' ev, Update kickCfg H opcodeTable now s = some (s', true, ev) ∧
      s'.sessionState = WorldSessionState.WORLD_SESSION_STATE_OFFLINE ∧
      s'.player = some pl ∧
      s'.logoutTime = now ∧
      Event.friendOffline pl.objectGuid ∈ ev := by
  intro kickCfg H opcodeTable now s sk pl hst hsk hcl hpl hq hm
  rw [Update_empty kickCfg H opcodeTable now s hq hm]
  obtain ⟨acc, pl0, guid, sock, rsock, q, plog, prlog, pload, psave, ltime, ktime,
    st, msgr, rq, rqm⟩ := s
  simp only at hst hsk hpl
  subst hst hsk hpl
  obtain ⟨skc⟩ := sk
  simp only at hcl
  subst hcl
  refine ⟨_, _, rfl, rfl, rfl, rfl, ?_⟩
  simp [sessionStateSwitch, SetOffline, LogoutRequest]

/-- C7 witness: the theorem evaluated on a READY session with a closed
transport and an attached player. -/
theorem C7_ready_socket_closed_witness :
    ∃ s' ev, Update false hId tableAuthed 70 sReadyClosed = some (s', true, ev) ∧
      s'.sessionState = WorldSessionState.WORLD_SESSION_STATE_OFFLINE ∧
      s'.player = some basePlayer ∧
      s'.logoutTime = 70 ∧
      Event.friendOffline basePlayer.objectGuid ∈ ev :=
  C7_ready_socket_closed false hId tableAuthed 70 sReadyClosed ⟨true⟩ basePlayer
    rfl rfl rfl rfl rfl rfl

/-- C8: an OFFLINE session whose reconnection grace deadline has elapsed runs
the full Logout Protocol, then reports remove-me exactly when neither a
pending transport nor an open active transport exists; the protocol itself
touches neither transport reference. -/
theorem C8_offline_grace_elapsed : ∀ (kickCfg : Bool) (H : HandlerSem)
    (opcodeTable : Nat → OpcodeHandler) (now : Nat) (s : WorldSession),
    s.sessionState = WorldSessionState.WORLD_SESSION_STATE_OFFLINE →
    ShouldDisconnect now s = true →
    s.recvQueue = [] → s.messager = [] →
    Update kickCfg H opcodeTable now s =
      some ((LogoutPlayer now s).1,
            (if (LogoutPlayer now s).1.m_requestSocket = none ∧
                socketOpen (LogoutPlayer now s).1 = false then false else true),
            (LogoutPlayer now s).2) ∧
    (LogoutPlayer now s).1.m_Socket = s.m_Socket ∧
    (LogoutPlayer now s).1.m_requestSocket = s.m_requestSocket := by
  intro kickCfg H opcodeTable now s hst hsd hq hm
  refine ⟨?_, (LogoutPlayer_sockets now s).1, (LogoutPlayer_sockets now s).2⟩
  rw [Update_empty kickCfg H opcodeTable now s hq hm]
  obtain ⟨acc, pl, guid, sock, rsock, q, plog, prlog, pload, psave, ltime, ktime,
    st, msgr, rq, rqm⟩ := s
  simp only at hst
  subst hst
  by_cases hc : (LogoutPlayer now
      ⟨acc, pl, guid, sock, rsock, q, plog, prlog, pload, psave, ltime, ktime,
       WorldSessionState.WORLD_SESSION_STATE_OFFLINE, msgr, rq, rqm⟩).1.m_requestSocket = none ∧
      socketOpen (LogoutPlayer now
      ⟨acc, pl, guid, sock, rsock, q, plog, prlog, pload, psave, ltime, ktime,
       WorldSessionState.WORLD_SESSION_STATE_OFFLINE, msgr, rq, rqm⟩).1 = false <;>
    simp [sessionStateSwitch, hsd, hc]

/-- C8 witness: the theorem evaluated on an OFFLINE session with an attached
player whose grace deadline of 10 elapsed well before the tick at 100. -/
theorem C8_offline_grace_elapsed_witness :
    Update false hId tableAuthed 100 sOffPast =
      some ((LogoutPlayer 100 sOffPast).1,
            (if (LogoutPlayer 100 sOffPast).1.m_requestSocket = none ∧
                socketOpen (LogoutPlayer 100 sOffPast).1 = false then false else true),
            (LogoutPlayer 100 sOffPast).2) ∧
    (LogoutPlayer 100 sOffPast).1.m_Socket = sOffPast.m_Socket ∧
    (LogoutPlayer 100 sOffPast).1.m_requestSocket = sOffPast.m_requestSocket :=
  C8_offline_grace_elapsed false hId tableAuthed 100 sOffPast rfl (by decide) rfl rfl

end Mangos
